import Mathlib

/-!
Shallow embedding of `src/main.cpp`, the MARTY demo driver computing the
muon self-energy and anomalous magnetic moment in a toy QED model.

The script is straight-line glue code over an external framework.  We embed
the framework's data as free terms (an `Amplitude`, `WilsonSet`, `Expr` value
records exactly which framework call produced it, with which arguments) and
the script itself as the concrete list of events it performs, in program
order.  Claims about call ordering, dataflow and the generated library are
then decidable statements over that trace.
-/

namespace MartyDemo

/-- Gauge group kinds used by the script (`group::Type::U1`). -/
inductive GroupType
  | U1
deriving DecidableEq, BEq, Repr

/-- Loop order argument of amplitude / Wilson-coefficient computations. -/
inductive LoopOrder
  | OneLoop
deriving DecidableEq, BEq, Repr

/-- An external leg: `Incoming`/`Outgoing`, particle name, and whether the
leg is wrapped in `OffShell`. -/
inductive Insertion
  | incoming (particleName : String) (offShell : Bool)
  | outgoing (particleName : String) (offShell : Bool)
deriving DecidableEq, BEq, Repr

/-- Evaluation modes for `Evaluated`; the script only uses
`eval::abbreviation`. -/
inductive EvalMode
  | abbreviation
deriving DecidableEq, BEq, Repr

/-- Dirac coupling kinds for `chromoMagneticOperator`; the script uses
`DiracCoupling::S`. -/
inductive DiracCoupling
  | S
  | P
  | L
  | R
  | V
  | A
  | T
deriving DecidableEq, BEq, Repr

/-- An amplitude value, recorded as the framework call that produced it:
`model.computeAmplitude(order, insertions)`. -/
inductive Amplitude
  | computeAmplitude (order : LoopOrder) (insertions : List Insertion)
deriving DecidableEq, BEq, Repr

/-- A Wilson set, recorded as the framework call that produced it: either
`model.getWilsonCoefficients(amplitude)` or
`model.computeWilsonCoefficients(order, insertions)`. -/
inductive WilsonSet
  | getWilsonCoefficients (a : Amplitude)
  | computeWilsonCoefficients (order : LoopOrder) (insertions : List Insertion)
deriving DecidableEq, BEq, Repr

/-- An operator selection, recorded as the framework call that produced it:
`chromoMagneticOperator(model, wilsonSet, coupling)`. -/
inductive WilsonOp
  | chromoMagneticOperator (ws : WilsonSet) (coupling : DiracCoupling)
deriving DecidableEq, BEq, Repr

/-- Symbolic expressions, as free terms over the framework operations the
script applies: coefficient extraction by index
(`ws[i].coef.getCoefficient()`), coefficient extraction by operator
(`getWilsonCoefficient(ws, op)`), squared amplitudes, `Evaluated`,
`DeepExpanded` and `DeepHardFactored`. -/
inductive Expr
  | coefGetCoefficient (ws : WilsonSet) (i : Nat)
  | getWilsonCoefficient (ws : WilsonSet) (op : WilsonOp)
  | computeSquaredAmplitude (a : Amplitude)
  | evaluated (e : Expr) (mode : EvalMode)
  | deepExpanded (e : Expr)
  | deepHardFactored (e : Expr)
deriving DecidableEq, BEq, Repr

/-- The state of a standalone `Particle` object: name, group
representations (group name, charge) and optional symbolic mass. -/
structure ParticleState where
  name : String
  reps : List (String × Int)
  mass : Option String
deriving DecidableEq, BEq, Repr

/-- `Particle muon = diracfermion_s("mu ; \\mu", model);` — freshly created,
no representation, no mass yet.  The short name is `mu`. -/
def muonCreated : ParticleState := ⟨"mu", [], none⟩

/-- After `muon->setGroupRep("em", -1)`. -/
def muonCharged : ParticleState := ⟨"mu", [("em", -1)], none⟩

/-- After `muon->setMass(constant_s("m_mu"))`; this is the particle state
passed to `model.addParticle(muon)`. -/
def muon : ParticleState := ⟨"mu", [("em", -1)], some "m_mu"⟩

/-- Insertions of the self-energy amplitude:
`{Incoming(OffShell("mu")), Outgoing(OffShell("mu"))}` (line 95). -/
def selfEnergyInsertions : List Insertion :=
  [Insertion.incoming "mu" true, Insertion.outgoing "mu" true]

/-- `Amplitude selfEnergy = model.computeAmplitude(OneLoop, {...});`
(line 93). -/
def selfEnergy : Amplitude :=
  Amplitude.computeAmplitude LoopOrder.OneLoop selfEnergyInsertions

/-- `WilsonSet wilsonsSelfEnergy = model.getWilsonCoefficients(selfEnergy);`
(line 106). -/
def wilsonsSelfEnergy : WilsonSet :=
  WilsonSet.getWilsonCoefficients selfEnergy

/-- `Expr muonSelfEnergy_mTerm = wilsonsSelfEnergy[0].coef.getCoefficient();`
(line 119). -/
def muonSelfEnergy_mTerm : Expr :=
  Expr.coefGetCoefficient wilsonsSelfEnergy 0

/-- `Expr muonSelfEnergy_pTerm = wilsonsSelfEnergy[1].coef.getCoefficient();`
(line 120). -/
def muonSelfEnergy_pTerm : Expr :=
  Expr.coefGetCoefficient wilsonsSelfEnergy 1

/-- `Expr squaredSelfEnergy = model.computeSquaredAmplitude(selfEnergy);`
(line 137). -/
def squaredSelfEnergy : Expr :=
  Expr.computeSquaredAmplitude selfEnergy

/-- `Expr evaluatedSelfEnergy = Evaluated(squaredSelfEnergy, eval::abbreviation);`
(line 140). -/
def evaluatedSelfEnergy : Expr :=
  Expr.evaluated squaredSelfEnergy EvalMode.abbreviation

/-- `Expr simplifiedSelfEnergy = DeepHardFactored(DeepExpanded(evaluatedSelfEnergy));`
(line 144). -/
def simplifiedSelfEnergy : Expr :=
  Expr.deepHardFactored (Expr.deepExpanded evaluatedSelfEnergy)

/-- Insertions of the magnetic-moment vertex:
`{Incoming("mu"), Outgoing("mu"), Outgoing("A")}` (line 167). -/
def vertexInsertions : List Insertion :=
  [Insertion.incoming "mu" false, Insertion.outgoing "mu" false,
   Insertion.outgoing "A" false]

/-- `WilsonSet wilsonsMuonVertex = model.computeWilsonCoefficients(OneLoop, {...});`
(line 165). -/
def wilsonsMuonVertex : WilsonSet :=
  WilsonSet.computeWilsonCoefficients LoopOrder.OneLoop vertexInsertions

/-- `vector<Wilson> muonMagOp = chromoMagneticOperator(model, wilsonsMuonVertex, DiracCoupling::S);`
(line 179). -/
def muonMagOp : WilsonOp :=
  WilsonOp.chromoMagneticOperator wilsonsMuonVertex DiracCoupling.S

/-- `Expr muonMagneticMoment = getWilsonCoefficient(wilsonsMuonVertex, muonMagOp);`
(line 186). -/
def muonMagneticMoment : Expr :=
  Expr.getWilsonCoefficient wilsonsMuonVertex muonMagOp

/-- `Expr evaluatedMagneticMoment = Evaluated(muonMagneticMoment, eval::abbreviation);`
(line 196). -/
def evaluatedMagneticMoment : Expr :=
  Expr.evaluated muonMagneticMoment EvalMode.abbreviation

/-- `Expr simplifiedMagneticMoment = DeepHardFactored(DeepExpanded(evaluatedMagneticMoment));`
(line 204). -/
def simplifiedMagneticMoment : Expr :=
  Expr.deepHardFactored (Expr.deepExpanded evaluatedMagneticMoment)

/-- One observable step of `main`: a framework call, a terminal write, or a
blocking terminal read.  `Evaluated`, `DeepExpanded` and `DeepHardFactored`
are pure transforms on `Expr` and produce no event of their own. -/
inductive Event
  | modelConstruct
  | addGaugedGroup (t : GroupType) (groupName coupling : String)
  | modelInit
  | renameParticle (oldName newName : String)
  | particleCreate (nameSpec : String)
  | setGroupRep (particleName groupName : String) (charge : Int)
  | setMass (particleName massName : String)
  | addParticle (p : ParticleState)
  | refresh
  | displayModel
  | showFeynmanRules
  | coutWrite (s : String)
  | coutExpr (e : Expr)
  | cinGet
  | computeAmplitude (order : LoopOrder) (insertions : List Insertion)
  | displayAmplitude (a : Amplitude)
  | showAmplitude (a : Amplitude)
  | getWilsonCoefficients (a : Amplitude)
  | displayWilson (ws : WilsonSet)
  | showWilson (ws : WilsonSet)
  | extractCoef (ws : WilsonSet) (i : Nat)
  | computeSquaredAmplitude (a : Amplitude)
  | computeWilsonCoefficients (order : LoopOrder) (insertions : List Insertion)
  | chromoMagneticOperator (ws : WilsonSet) (coupling : DiracCoupling)
  | getWilsonCoefficient (ws : WilsonSet) (op : WilsonOp)
  | libraryConstruct (libName : String)
  | cleanExistingSources
  | addFunction (funcName : String) (e : Expr)
  | build
deriving DecidableEq, BEq, Repr

/-- Events of the model-definition section (lines 49-74), in program
order, up to but not including the `cin.get()` of line 75. -/
def modelStage : List Event :=
  [Event.modelConstruct,
   Event.addGaugedGroup GroupType.U1 "em" "e",
   Event.modelInit,
   Event.renameParticle "A_em" "A",
   Event.particleCreate "mu ; \\mu",
   Event.setGroupRep "mu" "em" (-1),
   Event.setMass "mu" "m_mu",
   Event.addParticle muon,
   Event.refresh,
   Event.displayModel,
   Event.showFeynmanRules,
   Event.coutWrite "Press enter to launch the calculation of the muon self-energy ...\n"]

/-- Events of the muon self-energy section (lines 83-149), in program
order, between the `cin.get()` of line 75 and the one of line 150. -/
def selfEnergyStage : List Event :=
  [Event.coutWrite "###############################\n",
   Event.coutWrite "####  MUON SELF-ENERGY\n",
   Event.coutWrite "###############################\n\n",
   Event.computeAmplitude LoopOrder.OneLoop selfEnergyInsertions,
   Event.coutWrite "AMPLITUDE RESULTS:\n",
   Event.displayAmplitude selfEnergy,
   Event.showAmplitude selfEnergy,
   Event.coutWrite "WILSON COEFFICIENT RESULTS:\n",
   Event.getWilsonCoefficients selfEnergy,
   Event.displayWilson wilsonsSelfEnergy,
   Event.extractCoef wilsonsSelfEnergy 0,
   Event.extractCoef wilsonsSelfEnergy 1,
   Event.coutWrite "DECOMPOSITION OF THE TWO CONTRIBUTIONS:\n",
   Event.coutWrite "M-term contribution: ",
   Event.coutExpr (Expr.evaluated muonSelfEnergy_mTerm EvalMode.abbreviation),
   Event.coutWrite "P-term contribution: ",
   Event.coutExpr (Expr.evaluated muonSelfEnergy_pTerm EvalMode.abbreviation),
   Event.coutWrite "\n",
   Event.computeSquaredAmplitude selfEnergy,
   Event.coutWrite "SQUARED AMPLITUDE RESULT:\n",
   Event.coutWrite "\nM2              = ",
   Event.coutExpr squaredSelfEnergy,
   Event.coutWrite "\nM2 [evaluated]  = ",
   Event.coutExpr evaluatedSelfEnergy,
   Event.coutWrite "\nM2 [simplified] = ",
   Event.coutExpr simplifiedSelfEnergy,
   Event.coutWrite "\nPress enter to launch the calculation of (g-2) ...\n"]

/-- Events of the magnetic-moment section (lines 159-209), in program
order, between the `cin.get()` of line 150 and the one of line 210. -/
def magneticStage : List Event :=
  [Event.coutWrite "###############################\n",
   Event.coutWrite "####  MUON MAGNETIC MOMENT\n",
   Event.coutWrite "###############################\n\n",
   Event.computeWilsonCoefficients LoopOrder.OneLoop vertexInsertions,
   Event.coutWrite "WILSON COEFFICIENTS RESULTS:\n",
   Event.displayWilson wilsonsMuonVertex,
   Event.showWilson wilsonsMuonVertex,
   Event.chromoMagneticOperator wilsonsMuonVertex DiracCoupling.S,
   Event.getWilsonCoefficient wilsonsMuonVertex muonMagOp,
   Event.coutWrite "MAGNETIC MOMENT RESULTS:",
   Event.coutWrite "Muon magnetic moment              = ",
   Event.coutExpr (Expr.evaluated muonMagneticMoment EvalMode.abbreviation),
   Event.coutWrite "Muon magnetic moment [evaluated]  = ",
   Event.coutExpr evaluatedMagneticMoment,
   Event.coutWrite "Muon magnetic moment [simplified] = ",
   Event.coutExpr simplifiedMagneticMoment,
   Event.coutWrite "\nPress enter to launch the library generation ...\n"]

/-- Events of the library-generation section (lines 221-241), in program
order, after the `cin.get()` of line 210. -/
def libraryStage : List Event :=
  [Event.libraryConstruct "demolib",
   Event.cleanExistingSources,
   Event.addFunction "mu_self_e_mterm" muonSelfEnergy_mTerm,
   Event.addFunction "mu_self_e_pterm" muonSelfEnergy_pTerm,
   Event.addFunction "mu_self_e_squared" squaredSelfEnergy,
   Event.addFunction "mu_magnetic_vertex" muonMagneticMoment,
   Event.addFunction "mu_magnetic_vertex_eval" evaluatedMagneticMoment,
   Event.addFunction "mu_magnetic_vertex_simpli" simplifiedMagneticMoment,
   Event.build]

/-- The full event trace of `main` (lines 36-244): the four sections in
program order, separated by the three `cin.get()` reads of lines 75, 150
and 210. -/
def mainTrace : List Event :=
  modelStage ++ [Event.cinGet] ++ selfEnergyStage ++ [Event.cinGet]
    ++ magneticStage ++ [Event.cinGet] ++ libraryStage

/-- `main` returns 0 on its single, straight-line path (line 244). -/
def mainExitCode : Nat := 0

/-- The observable result of running `main`: its event trace and exit code. -/
def mainRun : List Event × Nat := (mainTrace, mainExitCode)

/-- Process-level wrapper: `main` is declared as `int main()`, so the
command line and the environment are not consumed; the outcome is the same
for every invocation. -/
def runProcess (_argv : List String) (_environ : List (String × String)) :
    List Event × Nat :=
  mainRun

/-- Recognizes `cin.get()` events, the only blocking terminal reads. -/
def Event.isCinGet : Event → Bool
  | Event.cinGet => true
  | _ => false

/-- Recognizes `lib.addFunction(name, expr)` events. -/
def Event.isAddFunction : Event → Bool
  | Event.addFunction _ _ => true
  | _ => false

/-- Recognizes the `lib.build()` event. -/
def Event.isBuild : Event → Bool
  | Event.build => true
  | _ => false

/-- Recognizes the `lib.cleanExistingSources()` event. -/
def Event.isCleanExistingSources : Event → Bool
  | Event.cleanExistingSources => true
  | _ => false

/-- Recognizes the `Library lib("demolib")` construction event. -/
def Event.isLibraryConstruct : Event → Bool
  | Event.libraryConstruct _ => true
  | _ => false

/-- Recognizes the `Model model` construction event. -/
def Event.isModelConstruct : Event → Bool
  | Event.modelConstruct => true
  | _ => false

/-- Recognizes `model.addGaugedGroup(...)` events. -/
def Event.isAddGaugedGroup : Event → Bool
  | Event.addGaugedGroup _ _ _ => true
  | _ => false

/-- Recognizes the `model.init()` event. -/
def Event.isModelInit : Event → Bool
  | Event.modelInit => true
  | _ => false

/-- Recognizes `model.addParticle(...)` events. -/
def Event.isAddParticle : Event → Bool
  | Event.addParticle _ => true
  | _ => false

/-- Recognizes the `model.refresh()` event. -/
def Event.isRefresh : Event → Bool
  | Event.refresh => true
  | _ => false

/-- Recognizes `model.computeAmplitude(...)` events. -/
def Event.isComputeAmplitude : Event → Bool
  | Event.computeAmplitude _ _ => true
  | _ => false

/-- Recognizes `model.computeWilsonCoefficients(...)` events. -/
def Event.isComputeWilsonCoefficients : Event → Bool
  | Event.computeWilsonCoefficients _ _ => true
  | _ => false

/-- Recognizes `chromoMagneticOperator(...)` events. -/
def Event.isChromoMagnetic : Event → Bool
  | Event.chromoMagneticOperator _ _ => true
  | _ => false

/-- Recognizes `getWilsonCoefficient(...)` events. -/
def Event.isGetWilsonCoefficient : Event → Bool
  | Event.getWilsonCoefficient _ _ => true
  | _ => false

/-- Recognizes the computation requests made on the model:
`computeAmplitude`, `getWilsonCoefficients`, `computeWilsonCoefficients`,
`computeSquaredAmplitude`. -/
def Event.isComputation : Event → Bool
  | Event.computeAmplitude _ _ => true
  | Event.getWilsonCoefficients _ => true
  | Event.computeWilsonCoefficients _ _ => true
  | Event.computeSquaredAmplitude _ => true
  | _ => false

/-- Recognizes the events that mutate the model's gauge-group or particle
content: `addGaugedGroup`, `init`, `renameParticle`, `addParticle`,
`refresh`. -/
def Event.isModelMutation : Event → Bool
  | Event.addGaugedGroup _ _ _ => true
  | Event.modelInit => true
  | Event.renameParticle _ _ => true
  | Event.addParticle _ => true
  | Event.refresh => true
  | _ => false

/-- Recognizes the events performed on the `Library` object. -/
def Event.isLibraryEvent : Event → Bool
  | Event.libraryConstruct _ => true
  | Event.cleanExistingSources => true
  | Event.addFunction _ _ => true
  | Event.build => true
  | _ => false

/-- `eventsPrecede p q tr` holds when, in `tr`, every event satisfying `p`
occurs strictly before every event satisfying `q`: the suffix starting at
the first `q`-event contains no `p`-event. -/
def eventsPrecede (p q : Event → Bool) (tr : List Event) : Bool :=
  (tr.dropWhile (fun e => !(q e))).all (fun e => !(p e))

/-- The `(name, expression)` pair of an `addFunction` event, if any. -/
def addFunctionData : Event → Option (String × Expr)
  | Event.addFunction n e => some (n, e)
  | _ => none

/-- The `(function name, expression)` pairs accumulated by the library, in
registration order. -/
def libEntries : List (String × Expr) :=
  mainTrace.filterMap addFunctionData

/-- The expressions produced by the self-energy stage (lines 119-144). -/
def stage2Exprs : List Expr :=
  [muonSelfEnergy_mTerm, muonSelfEnergy_pTerm, squaredSelfEnergy,
   evaluatedSelfEnergy, simplifiedSelfEnergy]

/-- The expressions produced by the magnetic-moment stage (lines 186-204). -/
def stage3Exprs : List Expr :=
  [muonMagneticMoment, evaluatedMagneticMoment, simplifiedMagneticMoment]

/-- A gauge group registered on the model: kind, name, coupling constant. -/
structure GaugeGroup where
  kind : GroupType
  groupName : String
  coupling : String
deriving DecidableEq, BEq, Repr

/-- The model's observable state: registered gauge groups, whether `init()`
has run, the particle content, and whether `refresh()` has run. -/
structure ModelState where
  groups : List GaugeGroup
  initialized : Bool
  particles : List ParticleState
  refreshed : Bool
deriving DecidableEq, BEq, Repr

/-- The state of a default-constructed `Model`. -/
def emptyModel : ModelState := ⟨[], false, [], false⟩

/-- Effect of one event on the model state.  `addGaugedGroup` appends a
group; `init()` locks the gauge sector and creates one gauge boson `A_g`
per gauged group `g`; `renameParticle` renames; `addParticle` appends;
`refresh()` finalizes.  Every other event leaves the model untouched
(terminal writes and reads, display calls, computation requests and
library operations only read the model). -/
def applyEvent (s : ModelState) (e : Event) : ModelState :=
  match e with
  | Event.addGaugedGroup t n c =>
      ⟨s.groups ++ [⟨t, n, c⟩], s.initialized, s.particles, s.refreshed⟩
  | Event.modelInit =>
      ⟨s.groups, true,
       s.particles ++ s.groups.map (fun g => ⟨"A_" ++ g.groupName, [], none⟩),
       s.refreshed⟩
  | Event.renameParticle o n =>
      ⟨s.groups, s.initialized,
       s.particles.map (fun p => if p.name == o then ⟨n, p.reps, p.mass⟩ else p),
       s.refreshed⟩
  | Event.addParticle p =>
      ⟨s.groups, s.initialized, s.particles ++ [p], s.refreshed⟩
  | Event.refresh =>
      ⟨s.groups, s.initialized, s.particles, true⟩
  | _ => s

/-- Model state after running a trace from the default-constructed model. -/
def modelAfter (tr : List Event) : ModelState :=
  tr.foldl applyEvent emptyModel

/-- Position of the `refresh()` event in the main trace. -/
def refreshIdx : Nat := mainTrace.findIdx Event.isRefresh

/-- The part of the main trace strictly after the `refresh()` event. -/
def postRefreshTrace : List Event := mainTrace.drop (refreshIdx + 1)

/-- Runs the trace against a queue of terminal confirmations (one entry per
newline-terminated line the user supplies).  Each `cin.get()` consumes one
confirmation; an empty queue at a read means the program stays blocked
(`none`).  Returns the unconsumed input on completion. -/
def consumeInput : List Event → List String → Option (List String)
  | [], inp => some inp
  | Event.cinGet :: _, [] => none
  | Event.cinGet :: tr, _ :: rest => consumeInput tr rest
  | _ :: tr, inp => consumeInput tr inp

/-- A Wilson coefficient as accessed by the script:
`.getCoefficient()` yields its expression. -/
structure WilsonCoefficient where
  getCoefficient : Expr
deriving DecidableEq, BEq, Repr

/-- One term of a Wilson set: an operator expression and its coefficient. -/
structure Wilson where
  op : Expr
  coef : WilsonCoefficient
deriving DecidableEq, BEq, Repr

/-- Checked indexing into the terms of a Wilson set. -/
def wilsonSetGet? (terms : List Wilson) (i : Nat) : Option Wilson :=
  terms[i]?

/-- Lines 119-120 with the unchecked `wilsonsSelfEnergy[0]` and
`wilsonsSelfEnergy[1]` accesses embedded as checked (Option-returning)
indexing, parametric in the list of terms the framework returns for the
self-energy Wilson set: yields the pair
`(muonSelfEnergy_mTerm, muonSelfEnergy_pTerm)` of coefficient expressions,
or `none` when an access is out of bounds. -/
def selfEnergyCoefExtraction (terms : List Wilson) : Option (Expr × Expr) :=
  match wilsonSetGet? terms 0, wilsonSetGet? terms 1 with
  | some w0, some w1 => some (w0.coef.getCoefficient, w1.coef.getCoefficient)
  | _, _ => none

/-- C1: the Library named "demolib" accumulates exactly six functions via
addFunction, named mu_self_e_mterm, mu_self_e_pterm, mu_self_e_squared,
mu_magnetic_vertex, mu_magnetic_vertex_eval, mu_magnetic_vertex_simpli, in
exactly that order, and all six addFunction calls happen before build() is
invoked. -/
theorem claim_C1 :
    libEntries.map Prod.fst
      = ["mu_self_e_mterm", "mu_self_e_pterm", "mu_self_e_squared",
         "mu_magnetic_vertex", "mu_magnetic_vertex_eval",
         "mu_magnetic_vertex_simpli"]
    ∧ libEntries.length = 6
    ∧ mainTrace.filter Event.isLibraryConstruct
        = [Event.libraryConstruct "demolib"]
    ∧ eventsPrecede Event.isLibraryConstruct Event.isAddFunction mainTrace = true
    ∧ eventsPrecede Event.isAddFunction Event.isBuild mainTrace = true
    ∧ (mainTrace.filter Event.isBuild).length = 1
    ∧ (mainTrace.filter Event.isAddFunction).length = 6 := by
  decide

/-- C2: cleanExistingSources() is invoked exactly once, and that invocation
precedes every addFunction call on the library. -/
theorem claim_C2 :
    (mainTrace.filter Event.isCleanExistingSources).length = 1
    ∧ eventsPrecede Event.isCleanExistingSources Event.isAddFunction mainTrace
        = true := by
  decide

/-- C3: the four stages (model construction, self-energy, magnetic moment,
library generation) execute strictly in that order; stage 2's amplitude is
computed from the model finalized in stage 1, stage 3's WilsonSet from the
same model, and stage 4 registers only expressions produced in stages 2
and 3. -/
theorem claim_C3 :
    mainTrace
      = modelStage ++ [Event.cinGet] ++ selfEnergyStage ++ [Event.cinGet]
          ++ magneticStage ++ [Event.cinGet] ++ libraryStage
    ∧ modelStage.contains Event.refresh = true
    ∧ selfEnergyStage.contains
        (Event.computeAmplitude LoopOrder.OneLoop selfEnergyInsertions) = true
    ∧ selfEnergyStage.contains (Event.getWilsonCoefficients selfEnergy) = true
    ∧ selfEnergyStage.contains (Event.computeSquaredAmplitude selfEnergy) = true
    ∧ magneticStage.contains
        (Event.computeWilsonCoefficients LoopOrder.OneLoop vertexInsertions)
        = true
    ∧ modelStage.all (fun e => !(e.isComputation || e.isLibraryEvent)) = true
    ∧ selfEnergyStage.all (fun e => !(e.isModelMutation || e.isLibraryEvent))
        = true
    ∧ magneticStage.all (fun e => !(e.isModelMutation || e.isLibraryEvent))
        = true
    ∧ libraryStage.all (fun e => !(e.isModelMutation || e.isComputation))
        = true
    ∧ libEntries.all (fun p => (stage2Exprs ++ stage3Exprs).contains p.2)
        = true
    ∧ selfEnergy
        = Amplitude.computeAmplitude LoopOrder.OneLoop selfEnergyInsertions
    ∧ wilsonsSelfEnergy = WilsonSet.getWilsonCoefficients selfEnergy := by
  decide

/-- C4: the model goes through construct, addGaugedGroup, init, addParticle,
refresh exactly once each and in that order; the gauge group is registered
before any particle is added; and refresh() precedes every computation
request on the model. -/
theorem claim_C4 :
    (mainTrace.filter Event.isModelConstruct).length = 1
    ∧ (mainTrace.filter Event.isAddGaugedGroup).length = 1
    ∧ (mainTrace.filter Event.isModelInit).length = 1
    ∧ (mainTrace.filter Event.isAddParticle).length = 1
    ∧ (mainTrace.filter Event.isRefresh).length = 1
    ∧ eventsPrecede Event.isModelConstruct Event.isAddGaugedGroup mainTrace
        = true
    ∧ eventsPrecede Event.isAddGaugedGroup Event.isModelInit mainTrace = true
    ∧ eventsPrecede Event.isModelInit Event.isAddParticle mainTrace = true
    ∧ eventsPrecede Event.isAddParticle Event.isRefresh mainTrace = true
    ∧ eventsPrecede Event.isAddGaugedGroup Event.isAddParticle mainTrace = true
    ∧ eventsPrecede Event.isRefresh Event.isComputation mainTrace = true := by
  decide

/-- C5: the magnetic-moment stage computes one-loop Wilson coefficients for
the legs Incoming "mu", Outgoing "mu", Outgoing "A", selects the dipole
operator via chromoMagneticOperator with DiracCoupling::S, extracts its
coefficient via getWilsonCoefficient, then evaluates abbreviations and
simplifies with DeepHardFactored of DeepExpanded. -/
theorem claim_C5 :
    wilsonsMuonVertex
      = WilsonSet.computeWilsonCoefficients LoopOrder.OneLoop
          [Insertion.incoming "mu" false, Insertion.outgoing "mu" false,
           Insertion.outgoing "A" false]
    ∧ muonMagOp
        = WilsonOp.chromoMagneticOperator wilsonsMuonVertex DiracCoupling.S
    ∧ muonMagneticMoment
        = Expr.getWilsonCoefficient wilsonsMuonVertex muonMagOp
    ∧ evaluatedMagneticMoment
        = Expr.evaluated muonMagneticMoment EvalMode.abbreviation
    ∧ simplifiedMagneticMoment
        = Expr.deepHardFactored (Expr.deepExpanded evaluatedMagneticMoment)
    ∧ magneticStage.contains
        (Event.computeWilsonCoefficients LoopOrder.OneLoop vertexInsertions)
        = true
    ∧ magneticStage.contains
        (Event.chromoMagneticOperator wilsonsMuonVertex DiracCoupling.S) = true
    ∧ magneticStage.contains
        (Event.getWilsonCoefficient wilsonsMuonVertex muonMagOp) = true
    ∧ eventsPrecede Event.isComputeWilsonCoefficients Event.isChromoMagnetic
        mainTrace = true
    ∧ eventsPrecede Event.isChromoMagnetic Event.isGetWilsonCoefficient
        mainTrace = true := by
  decide

/-- Helper: running the main trace against a queue of confirmations
completes exactly when at least three confirmations are supplied; with
fewer, the program is still blocked on a read. -/
theorem consumeInput_main_blocks (inp : List String) :
    (consumeInput mainTrace inp).isSome = true ↔ 3 ≤ inp.length := by
  match inp with
  | [] =>
    have h : consumeInput mainTrace [] = none := rfl
    simp [h]
  | [a] =>
    have h : consumeInput mainTrace [a] = none := rfl
    simp [h]
  | [a, b] =>
    have h : consumeInput mainTrace [a, b] = none := rfl
    simp [h]
  | a :: b :: c :: rest =>
    have h : consumeInput mainTrace (a :: b :: c :: rest) = some rest := rfl
    have hlen : 3 ≤ (a :: b :: c :: rest).length := by
      simp [List.length_cons]
    simp [h, hlen]

/-- C6: the program blocks on standard input exactly three times — after
the model stage (before the self-energy stage), after the self-energy stage
(before the (g-2) stage), and after the magnetic-moment stage (before
library generation) — each read consuming one user confirmation; a run
completes exactly when three confirmations arrive, and the trace contains
no other read. -/
theorem claim_C6 :
    mainTrace
      = modelStage ++ [Event.cinGet] ++ selfEnergyStage ++ [Event.cinGet]
          ++ magneticStage ++ [Event.cinGet] ++ libraryStage
    ∧ (mainTrace.filter Event.isCinGet).length = 3
    ∧ modelStage.all (fun e => !(e.isCinGet)) = true
    ∧ selfEnergyStage.all (fun e => !(e.isCinGet)) = true
    ∧ magneticStage.all (fun e => !(e.isCinGet)) = true
    ∧ libraryStage.all (fun e => !(e.isCinGet)) = true
    ∧ eventsPrecede Event.isCinGet Event.isBuild mainTrace = true
    ∧ (∀ inp : List String,
        (consumeInput mainTrace inp).isSome = true ↔ 3 ≤ inp.length) := by
  refine ⟨rfl, by decide, by decide, by decide, by decide, by decide,
    by decide, consumeInput_main_blocks⟩

/-- C7: after refresh() the model is never mutated again: every event after
the refresh leaves any model state unchanged, so the model state reached at
refresh() is the model state at exit. -/
theorem claim_C7 :
    (∀ s : ModelState, postRefreshTrace.foldl applyEvent s = s)
    ∧ modelAfter mainTrace = modelAfter (mainTrace.take (refreshIdx + 1)) := by
  constructor
  · intro s
    rfl
  · rfl

/-- C8: the process consumes no command-line arguments or environment
variables — every invocation produces the same trace and exit code — and
the single straight-line path exits with code 0. -/
theorem claim_C8 :
    (∀ (argv argv' : List String) (env env' : List (String × String)),
        runProcess argv env = runProcess argv' env')
    ∧ mainRun.2 = 0 := by
  exact ⟨fun _ _ _ _ => rfl, rfl⟩

/-- C9: the script reads the self-energy Wilson set at positions 0 and 1
with no bounds check; the Option-returning embedding of that extraction
succeeds exactly when the framework returns at least two terms, so under
that precondition the out-of-bounds branch is unreachable. -/
theorem claim_C9 :
    muonSelfEnergy_mTerm = Expr.coefGetCoefficient wilsonsSelfEnergy 0
    ∧ muonSelfEnergy_pTerm = Expr.coefGetCoefficient wilsonsSelfEnergy 1
    ∧ (∀ terms : List Wilson,
        (selfEnergyCoefExtraction terms).isSome = true ↔ 2 ≤ terms.length) := by
  refine ⟨rfl, rfl, ?_⟩
  intro terms
  match terms with
  | [] =>
    have h : selfEnergyCoefExtraction [] = none := rfl
    simp [h]
  | [w] =>
    have h : selfEnergyCoefExtraction [w] = none := rfl
    simp [h]
  | w0 :: w1 :: rest =>
    have h : selfEnergyCoefExtraction (w0 :: w1 :: rest)
        = some (w0.coef.getCoefficient, w1.coef.getCoefficient) := by
      simp [selfEnergyCoefExtraction, wilsonSetGet?]
    have hlen : 2 ≤ (w0 :: w1 :: rest).length := by
      simp [List.length_cons]
    simp [h, hlen]

/-- C10: the library entry mu_magnetic_vertex_eval is Evaluated(e,
abbreviation) of the entry e registered as mu_magnetic_vertex; the entry
mu_magnetic_vertex_simpli is DeepHardFactored(DeepExpanded(.)) of that
evaluated expression; and the entry mu_self_e_squared is the raw squared
amplitude, distinct from its evaluated and simplified variants that are
only printed to the terminal. -/
theorem claim_C10 :
    libEntries.lookup "mu_magnetic_vertex" = some muonMagneticMoment
    ∧ libEntries.lookup "mu_magnetic_vertex_eval"
        = some (Expr.evaluated muonMagneticMoment EvalMode.abbreviation)
    ∧ libEntries.lookup "mu_magnetic_vertex_simpli"
        = some (Expr.deepHardFactored (Expr.deepExpanded
            (Expr.evaluated muonMagneticMoment EvalMode.abbreviation)))
    ∧ libEntries.lookup "mu_self_e_squared" = some squaredSelfEnergy
    ∧ squaredSelfEnergy = Expr.computeSquaredAmplitude selfEnergy
    ∧ squaredSelfEnergy ≠ evaluatedSelfEnergy
    ∧ squaredSelfEnergy ≠ simplifiedSelfEnergy := by
  decide

end MartyDemo
